import Mathlib

/-!
Verification of the request/reply core of the `async-fuse-rs` library.

The development shallowly embeds two source files:

* `src/ll/request.rs` — the wire-format parser (`Request::try_from`,
  `Operation::parse`) over the kernel's framed binary protocol;
* `src/request.rs` — the dispatcher (`Request::dispatch`) that enforces the
  protocol state machine (INIT handshake, steady state, DESTROY) and hands
  parsed operations to the user filesystem.

Bytes are modelled as `List Nat` (each entry a byte value, little-endian
multi-byte fields, matching the little-endian test fixtures in the source).
Machine integers are modelled as `Nat`; none of the verified paths overflow
their `u32`/`u64` ranges for the inputs described by the claims.

The model fixes `target_os ≠ macos` (the "general platforms" configuration of
the spec); the ABI feature selectors (`abi-7-11` … `abi-7-19`) are carried
explicitly in a `Cfg` value.
-/

namespace AsyncFuse

/-- Little-endian 32-bit read of bytes at offset `off` (missing bytes read 0). -/
def le32 (b : List Nat) (off : Nat) : Nat :=
  b.getD off 0 + 256 * b.getD (off + 1) 0 + 65536 * b.getD (off + 2) 0 +
    16777216 * b.getD (off + 3) 0

/-- Little-endian 64-bit read of bytes at offset `off`. -/
def le64 (b : List Nat) (off : Nat) : Nat :=
  le32 b off + 4294967296 * le32 b (off + 4)

/-- Modelled from the spec: the Argument Cursor of §4.1 (`ll/argument.rs`,
`ArgumentIterator`, is not under `src/`).  It keeps the remaining byte slice;
`fetchBytes` consumes a fixed-size record, `fetchStr` a NUL-terminated string,
`fetchAll` the remaining bytes.  A failed fetch does not advance the cursor. -/
structure ArgIter where
  data : List Nat
deriving DecidableEq

/-- Number of remaining bytes (`ArgumentIterator::len`). -/
def ArgIter.len (it : ArgIter) : Nat := it.data.length

/-- Fetch `n` bytes (`ArgumentIterator::fetch::<T>` with `n = sizeof(T)`);
`none` when fewer than `n` bytes remain. -/
def ArgIter.fetchBytes (it : ArgIter) (n : Nat) : Option (List Nat × ArgIter) :=
  if n ≤ it.data.length then some (it.data.take n, ⟨it.data.drop n⟩) else none

/-- Fetch a NUL-terminated byte string (`ArgumentIterator::fetch_str`):
the bytes before the first 0 byte, advancing past the 0; `none` when no NUL
remains. -/
def ArgIter.fetchStr (it : ArgIter) : Option (List Nat × ArgIter) :=
  match it.data.findIdx? (· == 0) with
  | none => none
  | some i => some (it.data.take i, ⟨it.data.drop (i + 1)⟩)

/-- Fetch all remaining bytes (`ArgumentIterator::fetch_all`). -/
def ArgIter.fetchAll (it : ArgIter) : List Nat × ArgIter :=
  (it.data, ⟨[]⟩)

/-! ### Kernel ABI argument structures

Modelled from the spec (§3, §6) and the FUSE 7.x wire protocol: the `fuse_abi`
crate that declares these `#[repr(C)]` structs is not under `src/`.  Each
structure's decoder reads its fields at their wire offsets from the byte
record fetched for it. -/

/-- The fixed 40-byte packet header (`fuse_in_header`, spec §6 layout). -/
structure fuse_in_header where
  len : Nat
  opcode : Nat
  unique : Nat
  nodeid : Nat
  uid : Nat
  gid : Nat
  pid : Nat
  padding : Nat
deriving DecidableEq

/-- Size of `fuse_in_header` in bytes. -/
def fuse_in_header.size : Nat := 40

/-- Decode a `fuse_in_header` from its 40-byte record. -/
def fuse_in_header.decode (b : List Nat) : fuse_in_header :=
  { len := le32 b 0, opcode := le32 b 4, unique := le64 b 8, nodeid := le64 b 16,
    uid := le32 b 24, gid := le32 b 28, pid := le32 b 32, padding := le32 b 36 }

/-- FORGET argument (`fuse_forget_in`: nlookup u64). -/
structure fuse_forget_in where
  nlookup : Nat
deriving DecidableEq

def fuse_forget_in.size : Nat := 8

def fuse_forget_in.decode (b : List Nat) : fuse_forget_in :=
  { nlookup := le64 b 0 }

/-- SETATTR argument (`fuse_setattr_in`, non-macOS layout, 88 bytes). -/
structure fuse_setattr_in where
  valid : Nat
  padding : Nat
  fh : Nat
  size : Nat
  unused1 : Nat
  atime : Nat
  mtime : Nat
  unused2 : Nat
  atimensec : Nat
  mtimensec : Nat
  unused3 : Nat
  mode : Nat
  unused4 : Nat
  uid : Nat
  gid : Nat
  unused5 : Nat
deriving DecidableEq

def fuse_setattr_in.size_ : Nat := 88

def fuse_setattr_in.decode (b : List Nat) : fuse_setattr_in :=
  { valid := le32 b 0, padding := le32 b 4, fh := le64 b 8, size := le64 b 16,
    unused1 := le64 b 24, atime := le64 b 32, mtime := le64 b 40,
    unused2 := le64 b 48, atimensec := le32 b 56, mtimensec := le32 b 60,
    unused3 := le32 b 64, mode := le32 b 68, unused4 := le32 b 72,
    uid := le32 b 76, gid := le32 b 80, unused5 := le32 b 84 }

/-- MKNOD argument (`fuse_mknod_in`: mode u32, rdev u32). -/
structure fuse_mknod_in where
  mode : Nat
  rdev : Nat
deriving DecidableEq

def fuse_mknod_in.size : Nat := 8

def fuse_mknod_in.decode (b : List Nat) : fuse_mknod_in :=
  { mode := le32 b 0, rdev := le32 b 4 }

/-- MKDIR argument (`fuse_mkdir_in`: mode u32, padding u32). -/
structure fuse_mkdir_in where
  mode : Nat
  padding : Nat
deriving DecidableEq

def fuse_mkdir_in.size : Nat := 8

def fuse_mkdir_in.decode (b : List Nat) : fuse_mkdir_in :=
  { mode := le32 b 0, padding := le32 b 4 }

/-- RENAME argument (`fuse_rename_in`: newdir u64). -/
structure fuse_rename_in where
  newdir : Nat
deriving DecidableEq

def fuse_rename_in.size : Nat := 8

def fuse_rename_in.decode (b : List Nat) : fuse_rename_in :=
  { newdir := le64 b 0 }

/-- LINK argument (`fuse_link_in`: oldnodeid u64). -/
structure fuse_link_in where
  oldnodeid : Nat
deriving DecidableEq

def fuse_link_in.size : Nat := 8

def fuse_link_in.decode (b : List Nat) : fuse_link_in :=
  { oldnodeid := le64 b 0 }

/-- OPEN/OPENDIR argument (`fuse_open_in`: flags u32, mode u32). -/
structure fuse_open_in where
  flags : Nat
  mode : Nat
deriving DecidableEq

def fuse_open_in.size : Nat := 8

def fuse_open_in.decode (b : List Nat) : fuse_open_in :=
  { flags := le32 b 0, mode := le32 b 4 }

/-- READ/READDIR argument (`fuse_read_in`: fh u64, offset u64, size u32,
padding u32). -/
structure fuse_read_in where
  fh : Nat
  offset : Nat
  size : Nat
  padding : Nat
deriving DecidableEq

def fuse_read_in.size_ : Nat := 24

def fuse_read_in.decode (b : List Nat) : fuse_read_in :=
  { fh := le64 b 0, offset := le64 b 8, size := le32 b 16, padding := le32 b 20 }

/-- WRITE argument (`fuse_write_in`: fh u64, offset u64, size u32,
write_flags u32). -/
structure fuse_write_in where
  fh : Nat
  offset : Nat
  size : Nat
  write_flags : Nat
deriving DecidableEq

def fuse_write_in.size_ : Nat := 24

def fuse_write_in.decode (b : List Nat) : fuse_write_in :=
  { fh := le64 b 0, offset := le64 b 8, size := le32 b 16,
    write_flags := le32 b 20 }

/-- RELEASE/RELEASEDIR argument (`fuse_release_in`: fh u64, flags u32,
release_flags u32, lock_owner u64). -/
structure fuse_release_in where
  fh : Nat
  flags : Nat
  release_flags : Nat
  lock_owner : Nat
deriving DecidableEq

def fuse_release_in.size : Nat := 24

def fuse_release_in.decode (b : List Nat) : fuse_release_in :=
  { fh := le64 b 0, flags := le32 b 8, release_flags := le32 b 12,
    lock_owner := le64 b 16 }

/-- FSYNC/FSYNCDIR argument (`fuse_fsync_in`: fh u64, fsync_flags u32,
padding u32). -/
structure fuse_fsync_in where
  fh : Nat
  fsync_flags : Nat
  padding : Nat
deriving DecidableEq

def fuse_fsync_in.size : Nat := 16

def fuse_fsync_in.decode (b : List Nat) : fuse_fsync_in :=
  { fh := le64 b 0, fsync_flags := le32 b 8, padding := le32 b 12 }

/-- SETXATTR argument (`fuse_setxattr_in`, non-macOS: size u32, flags u32). -/
structure fuse_setxattr_in where
  size : Nat
  flags : Nat
deriving DecidableEq

def fuse_setxattr_in.size_ : Nat := 8

def fuse_setxattr_in.decode (b : List Nat) : fuse_setxattr_in :=
  { size := le32 b 0, flags := le32 b 4 }

/-- GETXATTR/LISTXATTR argument (`fuse_getxattr_in`: size u32, padding u32). -/
structure fuse_getxattr_in where
  size : Nat
  padding : Nat
deriving DecidableEq

def fuse_getxattr_in.size_ : Nat := 8

def fuse_getxattr_in.decode (b : List Nat) : fuse_getxattr_in :=
  { size := le32 b 0, padding := le32 b 4 }

/-- FLUSH argument (`fuse_flush_in`: fh u64, unused u32, padding u32,
lock_owner u64). -/
structure fuse_flush_in where
  fh : Nat
  unused : Nat
  padding : Nat
  lock_owner : Nat
deriving DecidableEq

def fuse_flush_in.size : Nat := 24

def fuse_flush_in.decode (b : List Nat) : fuse_flush_in :=
  { fh := le64 b 0, unused := le32 b 8, padding := le32 b 12,
    lock_owner := le64 b 16 }

/-- INIT argument (`fuse_init_in`: major u32, minor u32, max_readahead u32,
flags u32). -/
structure fuse_init_in where
  major : Nat
  minor : Nat
  max_readahead : Nat
  flags : Nat
deriving DecidableEq

def fuse_init_in.size : Nat := 16

def fuse_init_in.decode (b : List Nat) : fuse_init_in :=
  { major := le32 b 0, minor := le32 b 4, max_readahead := le32 b 8,
    flags := le32 b 12 }

/-- File-lock record (`fuse_file_lock`: start u64, end u64, typ u32, pid u32). -/
structure fuse_file_lock where
  start : Nat
  end_ : Nat
  typ : Nat
  pid : Nat
deriving DecidableEq

/-- GETLK/SETLK/SETLKW argument (`fuse_lk_in`: fh u64, owner u64,
lk fuse_file_lock). -/
structure fuse_lk_in where
  fh : Nat
  owner : Nat
  lk : fuse_file_lock
deriving DecidableEq

def fuse_lk_in.size : Nat := 40

def fuse_lk_in.decode (b : List Nat) : fuse_lk_in :=
  { fh := le64 b 0, owner := le64 b 8,
    lk := { start := le64 b 16, end_ := le64 b 24, typ := le32 b 32,
            pid := le32 b 36 } }

/-- ACCESS argument (`fuse_access_in`: mask u32, padding u32). -/
structure fuse_access_in where
  mask : Nat
  padding : Nat
deriving DecidableEq

def fuse_access_in.size : Nat := 8

def fuse_access_in.decode (b : List Nat) : fuse_access_in :=
  { mask := le32 b 0, padding := le32 b 4 }

/-- CREATE argument (`fuse_create_in`: flags u32, mode u32). -/
structure fuse_create_in where
  flags : Nat
  mode : Nat
deriving DecidableEq

def fuse_create_in.size : Nat := 8

def fuse_create_in.decode (b : List Nat) : fuse_create_in :=
  { flags := le32 b 0, mode := le32 b 4 }

/-- INTERRUPT argument (`fuse_interrupt_in`: unique u64). -/
structure fuse_interrupt_in where
  unique : Nat
deriving DecidableEq

def fuse_interrupt_in.size : Nat := 8

def fuse_interrupt_in.decode (b : List Nat) : fuse_interrupt_in :=
  { unique := le64 b 0 }

/-- BMAP argument (`fuse_bmap_in`: block u64, blocksize u32, padding u32). -/
structure fuse_bmap_in where
  block : Nat
  blocksize : Nat
  padding : Nat
deriving DecidableEq

def fuse_bmap_in.size : Nat := 16

def fuse_bmap_in.decode (b : List Nat) : fuse_bmap_in :=
  { block := le64 b 0, blocksize := le32 b 8, padding := le32 b 12 }

/-- IOCTL argument (`fuse_ioctl_in`, ABI 7.11: fh u64, flags u32, cmd u32,
arg u64, in_size u32, out_size u32). -/
structure fuse_ioctl_in where
  fh : Nat
  flags : Nat
  cmd : Nat
  arg : Nat
  in_size : Nat
  out_size : Nat
deriving DecidableEq

def fuse_ioctl_in.size : Nat := 32

def fuse_ioctl_in.decode (b : List Nat) : fuse_ioctl_in :=
  { fh := le64 b 0, flags := le32 b 8, cmd := le32 b 12, arg := le64 b 16,
    in_size := le32 b 24, out_size := le32 b 28 }

/-- POLL argument (`fuse_poll_in`, ABI 7.11: fh u64, kh u64, flags u32,
padding u32). -/
structure fuse_poll_in where
  fh : Nat
  kh : Nat
  flags : Nat
  padding : Nat
deriving DecidableEq

def fuse_poll_in.size : Nat := 24

def fuse_poll_in.decode (b : List Nat) : fuse_poll_in :=
  { fh := le64 b 0, kh := le64 b 8, flags := le32 b 16, padding := le32 b 20 }

/-- Forget record for BATCH_FORGET (`fuse_forget_one`: nodeid u64,
nlookup u64). -/
structure fuse_forget_one where
  nodeid : Nat
  nlookup : Nat
deriving DecidableEq

def fuse_forget_one.size : Nat := 16

def fuse_forget_one.decode (b : List Nat) : fuse_forget_one :=
  { nodeid := le64 b 0, nlookup := le64 b 8 }

/-- FALLOCATE argument (`fuse_fallocate_in`, ABI 7.19: fh u64, offset u64,
length u64, mode u32, padding u32). -/
structure fuse_fallocate_in where
  fh : Nat
  offset : Nat
  length : Nat
  mode : Nat
  padding : Nat
deriving DecidableEq

def fuse_fallocate_in.size : Nat := 32

def fuse_fallocate_in.decode (b : List Nat) : fuse_fallocate_in :=
  { fh := le64 b 0, offset := le64 b 8, length := le64 b 16, mode := le32 b 24,
    padding := le32 b 28 }

/-! ### Build configuration

The source selects ABI features and build constants at compile time; the model
carries them in a `Cfg` record.  `kernelMajor`/`kernelMinor` stand for the
`fuse_abi` constants `FUSE_KERNEL_VERSION`/`FUSE_KERNEL_MINOR_VERSION`
(modelled from the spec: "the implementation advertises the highest version it
knows (feature-selected at build time)"), and `maxWriteSize` stands for
`session::MAX_WRITE_SIZE` (modelled from the spec: "`max_write` set to the
session buffer's payload capacity"; `session.rs` is not under `src/`). -/
structure Cfg where
  abi711 : Bool
  abi712 : Bool
  abi713 : Bool
  abi715 : Bool
  abi716 : Bool
  abi719 : Bool
  kernelMajor : Nat
  kernelMinor : Nat
  maxWriteSize : Nat
deriving DecidableEq

/-- The opcode enumeration (`fuse_opcode`), non-macOS variants.  Version-gated
opcodes are present as constructors; `decodeOpcode` rejects them when the
corresponding feature is off. -/
inductive Opcode where
  | FUSE_LOOKUP
  | FUSE_FORGET
  | FUSE_GETATTR
  | FUSE_SETATTR
  | FUSE_READLINK
  | FUSE_SYMLINK
  | FUSE_MKNOD
  | FUSE_MKDIR
  | FUSE_UNLINK
  | FUSE_RMDIR
  | FUSE_RENAME
  | FUSE_LINK
  | FUSE_OPEN
  | FUSE_READ
  | FUSE_WRITE
  | FUSE_STATFS
  | FUSE_RELEASE
  | FUSE_FSYNC
  | FUSE_SETXATTR
  | FUSE_GETXATTR
  | FUSE_LISTXATTR
  | FUSE_REMOVEXATTR
  | FUSE_FLUSH
  | FUSE_INIT
  | FUSE_OPENDIR
  | FUSE_READDIR
  | FUSE_RELEASEDIR
  | FUSE_FSYNCDIR
  | FUSE_GETLK
  | FUSE_SETLK
  | FUSE_SETLKW
  | FUSE_ACCESS
  | FUSE_CREATE
  | FUSE_INTERRUPT
  | FUSE_BMAP
  | FUSE_DESTROY
  | FUSE_IOCTL
  | FUSE_POLL
  | FUSE_NOTIFY_REPLY
  | FUSE_BATCH_FORGET
  | FUSE_FALLOCATE
  | CUSE_INIT
deriving DecidableEq

/-- Decode a numeric opcode (`fuse_opcode::try_from(u32)`).  Modelled from the
spec §3/§6 and the FUSE wire protocol numbers; opcodes whose feature selector
is off are absent from the enumeration and therefore rejected, "yielding
`UnknownOperation`" (spec §4.2). -/
def decodeOpcode (cfg : Cfg) (n : Nat) : Option Opcode :=
  match n with
  | 1 => some .FUSE_LOOKUP
  | 2 => some .FUSE_FORGET
  | 3 => some .FUSE_GETATTR
  | 4 => some .FUSE_SETATTR
  | 5 => some .FUSE_READLINK
  | 6 => some .FUSE_SYMLINK
  | 8 => some .FUSE_MKNOD
  | 9 => some .FUSE_MKDIR
  | 10 => some .FUSE_UNLINK
  | 11 => some .FUSE_RMDIR
  | 12 => some .FUSE_RENAME
  | 13 => some .FUSE_LINK
  | 14 => some .FUSE_OPEN
  | 15 => some .FUSE_READ
  | 16 => some .FUSE_WRITE
  | 17 => some .FUSE_STATFS
  | 18 => some .FUSE_RELEASE
  | 20 => some .FUSE_FSYNC
  | 21 => some .FUSE_SETXATTR
  | 22 => some .FUSE_GETXATTR
  | 23 => some .FUSE_LISTXATTR
  | 24 => some .FUSE_REMOVEXATTR
  | 25 => some .FUSE_FLUSH
  | 26 => some .FUSE_INIT
  | 27 => some .FUSE_OPENDIR
  | 28 => some .FUSE_READDIR
  | 29 => some .FUSE_RELEASEDIR
  | 30 => some .FUSE_FSYNCDIR
  | 31 => some .FUSE_GETLK
  | 32 => some .FUSE_SETLK
  | 33 => some .FUSE_SETLKW
  | 34 => some .FUSE_ACCESS
  | 35 => some .FUSE_CREATE
  | 36 => some .FUSE_INTERRUPT
  | 37 => some .FUSE_BMAP
  | 38 => some .FUSE_DESTROY
  | 39 => if cfg.abi711 then some .FUSE_IOCTL else none
  | 40 => if cfg.abi711 then some .FUSE_POLL else none
  | 41 => if cfg.abi715 then some .FUSE_NOTIFY_REPLY else none
  | 42 => if cfg.abi716 then some .FUSE_BATCH_FORGET else none
  | 43 => if cfg.abi719 then some .FUSE_FALLOCATE else none
  | 4096 => if cfg.abi712 then some .CUSE_INIT else none
  | _ => none

/-- The parsed operation union (`ll::Operation`, non-macOS variants).
Name strings are byte lists (`OsString` payloads); trailing data buffers are
byte lists (`Vec<u8>`). -/
inductive Operation where
  | Lookup (name : List Nat)
  | Forget (arg : fuse_forget_in)
  | GetAttr
  | SetAttr (arg : fuse_setattr_in)
  | ReadLink
  | SymLink (name link : List Nat)
  | MkNod (arg : fuse_mknod_in) (name : List Nat)
  | MkDir (arg : fuse_mkdir_in) (name : List Nat)
  | Unlink (name : List Nat)
  | RmDir (name : List Nat)
  | Rename (arg : fuse_rename_in) (name newname : List Nat)
  | Link (arg : fuse_link_in) (name : List Nat)
  | Open (arg : fuse_open_in)
  | Read (arg : fuse_read_in)
  | Write (arg : fuse_write_in) (data : List Nat)
  | StatFs
  | Release (arg : fuse_release_in)
  | FSync (arg : fuse_fsync_in)
  | SetXAttr (arg : fuse_setxattr_in) (name : List Nat) (value : List Nat)
  | GetXAttr (arg : fuse_getxattr_in) (name : List Nat)
  | ListXAttr (arg : fuse_getxattr_in)
  | RemoveXAttr (name : List Nat)
  | Flush (arg : fuse_flush_in)
  | Init (arg : fuse_init_in)
  | OpenDir (arg : fuse_open_in)
  | ReadDir (arg : fuse_read_in)
  | ReleaseDir (arg : fuse_release_in)
  | FSyncDir (arg : fuse_fsync_in)
  | GetLk (arg : fuse_lk_in)
  | SetLk (arg : fuse_lk_in)
  | SetLkW (arg : fuse_lk_in)
  | Access (arg : fuse_access_in)
  | Create (arg : fuse_create_in) (name : List Nat)
  | Interrupt (arg : fuse_interrupt_in)
  | BMap (arg : fuse_bmap_in)
  | Destroy
  | IoCtl (arg : fuse_ioctl_in) (data : List Nat)
  | Poll (arg : fuse_poll_in)
  | NotifyReply (data : List Nat)
  | BatchForget (arg : fuse_forget_in) (nodes : List fuse_forget_one)
  | FAllocate (arg : fuse_fallocate_in)
  | CuseInit (arg : fuse_init_in)
deriving DecidableEq

/-- The BATCH_FORGET record loop: `while let Some(node) = data.fetch() { … }`,
collecting `fuse_forget_one` records until the cursor is exhausted. -/
def fetchForgetNodes (l : List Nat) : List fuse_forget_one :=
  if _h : fuse_forget_one.size ≤ l.length then
    fuse_forget_one.decode (l.take fuse_forget_one.size) ::
      fetchForgetNodes (l.drop fuse_forget_one.size)
  else
    []
termination_by l.length
decreasing_by
  simp only [List.length_drop, fuse_forget_one.size] at *
  omega

/-- `Operation::parse(opcode, data)`: fetch the documented argument schema for
the opcode from the cursor; `none` mirrors a failed fetch
(`InsufficientData` at the caller). -/
def Operation.parse (opcode : Opcode) (it : ArgIter) : Option Operation :=
  match opcode with
  | .FUSE_LOOKUP => do
      let (name, _) ← it.fetchStr
      pure (.Lookup name)
  | .FUSE_FORGET => do
      let (b, _) ← it.fetchBytes fuse_forget_in.size
      pure (.Forget (fuse_forget_in.decode b))
  | .FUSE_GETATTR => pure .GetAttr
  | .FUSE_SETATTR => do
      let (b, _) ← it.fetchBytes fuse_setattr_in.size_
      pure (.SetAttr (fuse_setattr_in.decode b))
  | .FUSE_READLINK => pure .ReadLink
  | .FUSE_SYMLINK => do
      let (name, it1) ← it.fetchStr
      let (link, _) ← it1.fetchStr
      pure (.SymLink name link)
  | .FUSE_MKNOD => do
      let (b, it1) ← it.fetchBytes fuse_mknod_in.size
      let (name, _) ← it1.fetchStr
      pure (.MkNod (fuse_mknod_in.decode b) name)
  | .FUSE_MKDIR => do
      let (b, it1) ← it.fetchBytes fuse_mkdir_in.size
      let (name, _) ← it1.fetchStr
      pure (.MkDir (fuse_mkdir_in.decode b) name)
  | .FUSE_UNLINK => do
      let (name, _) ← it.fetchStr
      pure (.Unlink name)
  | .FUSE_RMDIR => do
      let (name, _) ← it.fetchStr
      pure (.RmDir name)
  | .FUSE_RENAME => do
      let (b, it1) ← it.fetchBytes fuse_rename_in.size
      let (name, it2) ← it1.fetchStr
      let (newname, _) ← it2.fetchStr
      pure (.Rename (fuse_rename_in.decode b) name newname)
  | .FUSE_LINK => do
      let (b, it1) ← it.fetchBytes fuse_link_in.size
      let (name, _) ← it1.fetchStr
      pure (.Link (fuse_link_in.decode b) name)
  | .FUSE_OPEN => do
      let (b, _) ← it.fetchBytes fuse_open_in.size
      pure (.Open (fuse_open_in.decode b))
  | .FUSE_READ => do
      let (b, _) ← it.fetchBytes fuse_read_in.size_
      pure (.Read (fuse_read_in.decode b))
  | .FUSE_WRITE => do
      let (b, it1) ← it.fetchBytes fuse_write_in.size_
      let (data, _) := it1.fetchAll
      pure (.Write (fuse_write_in.decode b) data)
  | .FUSE_STATFS => pure .StatFs
  | .FUSE_RELEASE => do
      let (b, _) ← it.fetchBytes fuse_release_in.size
      pure (.Release (fuse_release_in.decode b))
  | .FUSE_FSYNC => do
      let (b, _) ← it.fetchBytes fuse_fsync_in.size
      pure (.FSync (fuse_fsync_in.decode b))
  | .FUSE_SETXATTR => do
      let (b, it1) ← it.fetchBytes fuse_setxattr_in.size_
      let (name, it2) ← it1.fetchStr
      let (value, _) := it2.fetchAll
      pure (.SetXAttr (fuse_setxattr_in.decode b) name value)
  | .FUSE_GETXATTR => do
      let (b, it1) ← it.fetchBytes fuse_getxattr_in.size_
      let (name, _) ← it1.fetchStr
      pure (.GetXAttr (fuse_getxattr_in.decode b) name)
  | .FUSE_LISTXATTR => do
      let (b, _) ← it.fetchBytes fuse_getxattr_in.size_
      pure (.ListXAttr (fuse_getxattr_in.decode b))
  | .FUSE_REMOVEXATTR => do
      let (name, _) ← it.fetchStr
      pure (.RemoveXAttr name)
  | .FUSE_FLUSH => do
      let (b, _) ← it.fetchBytes fuse_flush_in.size
      pure (.Flush (fuse_flush_in.decode b))
  | .FUSE_INIT => do
      let (b, _) ← it.fetchBytes fuse_init_in.size
      pure (.Init (fuse_init_in.decode b))
  | .FUSE_OPENDIR => do
      let (b, _) ← it.fetchBytes fuse_open_in.size
      pure (.OpenDir (fuse_open_in.decode b))
  | .FUSE_READDIR => do
      let (b, _) ← it.fetchBytes fuse_read_in.size_
      pure (.ReadDir (fuse_read_in.decode b))
  | .FUSE_RELEASEDIR => do
      let (b, _) ← it.fetchBytes fuse_release_in.size
      pure (.ReleaseDir (fuse_release_in.decode b))
  | .FUSE_FSYNCDIR => do
      let (b, _) ← it.fetchBytes fuse_fsync_in.size
      pure (.FSyncDir (fuse_fsync_in.decode b))
  | .FUSE_GETLK => do
      let (b, _) ← it.fetchBytes fuse_lk_in.size
      pure (.GetLk (fuse_lk_in.decode b))
  | .FUSE_SETLK => do
      let (b, _) ← it.fetchBytes fuse_lk_in.size
      pure (.SetLk (fuse_lk_in.decode b))
  | .FUSE_SETLKW => do
      let (b, _) ← it.fetchBytes fuse_lk_in.size
      pure (.SetLkW (fuse_lk_in.decode b))
  | .FUSE_ACCESS => do
      let (b, _) ← it.fetchBytes fuse_access_in.size
      pure (.Access (fuse_access_in.decode b))
  | .FUSE_CREATE => do
      let (b, it1) ← it.fetchBytes fuse_create_in.size
      let (name, _) ← it1.fetchStr
      pure (.Create (fuse_create_in.decode b) name)
  | .FUSE_INTERRUPT => do
      let (b, _) ← it.fetchBytes fuse_interrupt_in.size
      pure (.Interrupt (fuse_interrupt_in.decode b))
  | .FUSE_BMAP => do
      let (b, _) ← it.fetchBytes fuse_bmap_in.size
      pure (.BMap (fuse_bmap_in.decode b))
  | .FUSE_DESTROY => pure .Destroy
  | .FUSE_IOCTL => do
      let (b, it1) ← it.fetchBytes fuse_ioctl_in.size
      let (data, _) := it1.fetchAll
      pure (.IoCtl (fuse_ioctl_in.decode b) data)
  | .FUSE_POLL => do
      let (b, _) ← it.fetchBytes fuse_poll_in.size
      pure (.Poll (fuse_poll_in.decode b))
  | .FUSE_NOTIFY_REPLY => do
      let (data, _) := it.fetchAll
      pure (.NotifyReply data)
  | .FUSE_BATCH_FORGET => do
      let (b, it1) ← it.fetchBytes fuse_forget_in.size
      pure (.BatchForget (fuse_forget_in.decode b) (fetchForgetNodes it1.data))
  | .FUSE_FALLOCATE => do
      let (b, _) ← it.fetchBytes fuse_fallocate_in.size
      pure (.FAllocate (fuse_fallocate_in.decode b))
  | .CUSE_INIT => do
      let (b, _) ← it.fetchBytes fuse_init_in.size
      pure (.CuseInit (fuse_init_in.decode b))

/-- Parse error of the wire parser (`ll::RequestError`). -/
inductive RequestError where
  | ShortReadHeader (len : Nat)
  | UnknownOperation (opcode : Nat)
  | ShortRead (len total : Nat)
  | InsufficientData
deriving DecidableEq

/-- A parsed request (`ll::Request`): the header by value plus the operation. -/
structure Request where
  header : fuse_in_header
  operation : Operation
deriving DecidableEq

/-- `ll::Request::try_from(&[u8])`: fetch the header, decode the opcode,
check the declared total length against the buffer, then parse the
opcode-specific arguments. -/
def Request.tryFrom (cfg : Cfg) (data : List Nat) : Except RequestError Request :=
  let data_len := data.length
  let it : ArgIter := ⟨data⟩
  match it.fetchBytes fuse_in_header.size with
  | none =>
      -- a failed fetch does not advance, so `data.len()` is the full length
      .error (.ShortReadHeader it.len)
  | some (hb, it1) =>
      let header := fuse_in_header.decode hb
      match decodeOpcode cfg header.opcode with
      | none => .error (.UnknownOperation header.opcode)
      | some opcode =>
          if data_len < header.len then
            .error (.ShortRead data_len header.len)
          else
            match Operation.parse opcode it1 with
            | none => .error .InsufficientData
            | some operation => .ok { header := header, operation := operation }

/-! ### Dispatcher (`src/request.rs`)

The dispatcher is `async` Rust; its only suspension points are the awaited
filesystem callbacks.  The model runs one request to completion and records
the externally visible actions as a list of `Event`s: error/success replies
written by the dispatcher itself, reply handles handed to a callback (the
reply discipline makes the callback consume the handle exactly once), and
callback invocations that receive no reply handle (`forget`, `init`,
`destroy`).  A failed `assert!` is recorded as `assertionFailure` and, as in
Rust, aborts the arm before any further action. -/

/-- Errno `libc::EIO`. -/
def EIO : Nat := 5

/-- Errno `libc::ENOSYS`. -/
def ENOSYS : Nat := 38

/-- Errno `libc::EPROTO`. -/
def EPROTO : Nat := 71

/-- `FUSE_ASYNC_READ` capability bit. -/
def FUSE_ASYNC_READ : Nat := 1

/-- `INIT_FLAGS`: on general (non-macOS) platforms, `FUSE_ASYNC_READ`. -/
def INIT_FLAGS : Nat := FUSE_ASYNC_READ

/-- The INIT response payload (`fuse_init_out`).  The `abi-7-13` fields are
`none` when the feature is off (the struct then carries `unused: 0`). -/
structure fuse_init_out where
  major : Nat
  minor : Nat
  max_readahead : Nat
  flags : Nat
  max_write : Nat
  max_background : Option Nat
  congestion_threshold : Option Nat
deriving DecidableEq

/-- Session state observed by the dispatcher: the two phase flags and the
negotiated ABI version (`session::Session` fields `initialized`, `destroyed`,
`proto_major`, `proto_minor`). -/
structure Session where
  initialized : Bool
  destroyed : Bool
  proto_major : Nat
  proto_minor : Nat
deriving DecidableEq

/-- A reply written by the dispatcher itself. -/
inductive FuseReply where
  | okEmpty
  | okInit (out : fuse_init_out)
  | error (errno : Nat)
deriving DecidableEq

/-- The reply encoder's `result` field: 0 on success, the negated errno on
error. -/
def FuseReply.result : FuseReply → Int
  | .error errno => -(errno : Int)
  | _ => 0

/-- Externally visible actions of one `dispatch` run. -/
inductive Event where
  | sent (unique : Nat) (r : FuseReply)
  | handed (unique : Nat) (cb : String)
  | invoked (cb : String)
  | assertionFailure
deriving DecidableEq

instance {ε α : Type} [DecidableEq ε] [DecidableEq α] :
    DecidableEq (Except ε α) := fun a b =>
  match a, b with
  | .ok x, .ok y =>
      if h : x = y then isTrue (by rw [h]) else isFalse (by simp [h])
  | .ok _, .error _ => isFalse (by simp)
  | .error _, .ok _ => isFalse (by simp)
  | .error x, .error y =>
      if h : x = y then isTrue (by rw [h]) else isFalse (by simp [h])

/-- Model of the user filesystem as far as the dispatcher's control flow
depends on it: only the result of the `init` callback feeds back into
`dispatch` (every other callback receives the reply handle and owns it). -/
structure FSModel where
  initResult : Except Nat Unit
deriving DecidableEq

/-- The two fall-through guards of the `match` in `Request::dispatch`:
`_ if !se.initialized` replies EIO, then `_ if se.destroyed` replies EIO;
otherwise the arm's own behavior runs.  (The `Init` arm precedes both guards
and the `Destroy` arm sits between them, so they take these guards only as
indicated at their call sites below.) -/
def phaseGate (se : Session) (unique : Nat) (arm : Session × List Event) :
    Session × List Event :=
  if se.initialized = false then (se, [.sent unique (.error EIO)])
  else if se.destroyed = true then (se, [.sent unique (.error EIO)])
  else arm

/-- `Request::dispatch`: the protocol state machine over one parsed operation.
Mirrors the source `match` arm by arm; `unique` is `header.unique`, bound into
every reply.  Returns the updated session and the emitted events. -/
def dispatch (cfg : Cfg) (fs : FSModel) (se : Session) (unique : Nat) :
    Operation → Session × List Event
  | .Init arg =>
      -- ABI versions before 7.6 are unsupported
      if arg.major < 7 ∨ (arg.major = 7 ∧ arg.minor < 6) then
        (se, [.sent unique (.error EPROTO)])
      else
        -- remember the ABI version supported by the kernel
        let se1 := { se with proto_major := arg.major, proto_minor := arg.minor }
        match fs.initResult with
        | .error err => (se1, [.invoked "init", .sent unique (.error err)])
        | .ok _ =>
            let out : fuse_init_out :=
              { major := cfg.kernelMajor
                minor := cfg.kernelMinor
                max_readahead := arg.max_readahead
                flags := arg.flags &&& INIT_FLAGS
                max_write := cfg.maxWriteSize
                max_background := if cfg.abi713 then some 32 else none
                congestion_threshold := if cfg.abi713 then some 30 else none }
            ({ se1 with initialized := true },
             [.invoked "init", .sent unique (.okInit out)])
  | .Destroy =>
      -- only the `!initialized` guard precedes the Destroy arm
      if se.initialized = false then (se, [.sent unique (.error EIO)])
      else ({ se with destroyed := true },
            [.invoked "destroy", .sent unique .okEmpty])
  | .Interrupt _ => phaseGate se unique (se, [.sent unique (.error ENOSYS)])
  | .Lookup _ => phaseGate se unique (se, [.handed unique "lookup"])
  | .Forget _ => phaseGate se unique (se, [.invoked "forget"])
  | .GetAttr => phaseGate se unique (se, [.handed unique "getattr"])
  | .SetAttr _ => phaseGate se unique (se, [.handed unique "setattr"])
  | .ReadLink => phaseGate se unique (se, [.handed unique "readlink"])
  | .MkNod _ _ => phaseGate se unique (se, [.handed unique "mknod"])
  | .MkDir _ _ => phaseGate se unique (se, [.handed unique "mkdir"])
  | .Unlink _ => phaseGate se unique (se, [.handed unique "unlink"])
  | .RmDir _ => phaseGate se unique (se, [.handed unique "rmdir"])
  | .SymLink _ _ => phaseGate se unique (se, [.handed unique "symlink"])
  | .Rename _ _ _ => phaseGate se unique (se, [.handed unique "rename"])
  | .Link _ _ => phaseGate se unique (se, [.handed unique "link"])
  | .Open _ => phaseGate se unique (se, [.handed unique "open"])
  | .Read _ => phaseGate se unique (se, [.handed unique "read"])
  | .Write arg data =>
      phaseGate se unique
        (if data.length = arg.size then (se, [.handed unique "write"])
         else (se, [.assertionFailure]))
  | .Flush _ => phaseGate se unique (se, [.handed unique "flush"])
  | .Release _ => phaseGate se unique (se, [.handed unique "release"])
  | .FSync _ => phaseGate se unique (se, [.handed unique "fsync"])
  | .OpenDir _ => phaseGate se unique (se, [.handed unique "opendir"])
  | .ReadDir _ => phaseGate se unique (se, [.handed unique "readdir"])
  | .ReleaseDir _ => phaseGate se unique (se, [.handed unique "releasedir"])
  | .FSyncDir _ => phaseGate se unique (se, [.handed unique "fsyncdir"])
  | .StatFs => phaseGate se unique (se, [.handed unique "statfs"])
  | .SetXAttr arg _ value =>
      phaseGate se unique
        (if value.length = arg.size then (se, [.handed unique "setxattr"])
         else (se, [.assertionFailure]))
  | .GetXAttr _ _ => phaseGate se unique (se, [.handed unique "getxattr"])
  | .ListXAttr _ => phaseGate se unique (se, [.handed unique "listxattr"])
  | .RemoveXAttr _ => phaseGate se unique (se, [.handed unique "removexattr"])
  | .Access _ => phaseGate se unique (se, [.handed unique "access"])
  | .Create _ _ => phaseGate se unique (se, [.handed unique "create"])
  | .GetLk _ => phaseGate se unique (se, [.handed unique "getlk"])
  | .SetLk _ => phaseGate se unique (se, [.handed unique "setlk"])
  | .SetLkW _ => phaseGate se unique (se, [.handed unique "setlk"])
  | .BMap _ => phaseGate se unique (se, [.handed unique "bmap"])
  | .IoCtl _ _ => phaseGate se unique (se, [.sent unique (.error ENOSYS)])
  | .Poll _ => phaseGate se unique (se, [.sent unique (.error ENOSYS)])
  | .NotifyReply _ => phaseGate se unique (se, [.sent unique (.error ENOSYS)])
  | .BatchForget _ _ => phaseGate se unique (se, [.sent unique (.error ENOSYS)])
  | .FAllocate _ => phaseGate se unique (se, [.sent unique (.error ENOSYS)])
  | .CuseInit _ => phaseGate se unique (se, [.sent unique (.error ENOSYS)])

/-- Session after dispatching a sequence of requests in order
(each pair is `(header.unique, operation)`). -/
def dispatchSeq (cfg : Cfg) (fs : FSModel) (se : Session) :
    List (Nat × Operation) → Session
  | [] => se
  | p :: rest => dispatchSeq cfg fs (dispatch cfg fs se p.1 p.2).1 rest

/-- The session states visited while dispatching a sequence of requests,
starting state included. -/
def sessionTrace (cfg : Cfg) (fs : FSModel) (se : Session) :
    List (Nat × Operation) → List Session
  | [] => [se]
  | p :: rest => se :: sessionTrace cfg fs (dispatch cfg fs se p.1 p.2).1 rest

/-- An event that counts as a reply for the at-most-one-reply discipline:
either the dispatcher wrote the reply itself or it handed the one-shot reply
handle to the callback. -/
def Event.isReply : Event → Bool
  | .sent _ _ => true
  | .handed _ _ => true
  | _ => false

/-- Number of replies among the events of one dispatch. -/
def replyCount (es : List Event) : Nat :=
  (es.filter Event.isReply).length

/-- Whether some filesystem callback ran (with or without a reply handle). -/
def callbackInvoked (es : List Event) : Bool :=
  es.any fun e =>
    match e with
    | .handed _ _ => true
    | .invoked _ => true
    | _ => false

/-- Whether the operation is the INIT variant. -/
def Operation.isInit : Operation → Bool
  | .Init _ => true
  | _ => false

/-- Whether the operation is the DESTROY variant. -/
def Operation.isDestroy : Operation → Bool
  | .Destroy => true
  | _ => false

/-- Whether the operation is the FORGET variant. -/
def Operation.isForget : Operation → Bool
  | .Forget _ => true
  | _ => false

/-- Whether the operation is the BATCH_FORGET variant. -/
def Operation.isBatchForget : Operation → Bool
  | .BatchForget _ _ => true
  | _ => false

/-- Whether the operation is the INTERRUPT variant. -/
def Operation.isInterrupt : Operation → Bool
  | .Interrupt _ => true
  | _ => false

/-- The precondition the dispatcher's `assert!`s express: a WRITE or SETXATTR
operation carries exactly `arg.size` bytes of data. -/
def Operation.sizesConsistent : Operation → Bool
  | .Write arg data => data.length = arg.size
  | .SetXAttr arg _ value => value.length = arg.size
  | _ => true

/-- Rising edges of a boolean trace: the number of indices where the value
steps from `false` to `true`. -/
def risingEdges : List Bool → Nat
  | a :: b :: rest => (if a = false ∧ b = true then 1 else 0) + risingEdges (b :: rest)
  | _ => 0

/-! ### Concrete fixtures

`INIT_REQUEST` is the little-endian 56-byte INIT fixture from the source's
test module; the other values pick one representative build configuration
(all ABI features on, implementation version 7.8, 16 MiB write buffer),
filesystem behavior and session state for witnesses and counterexamples. -/

/-- The 56-byte little-endian INIT_REQUEST test fixture. -/
def INIT_REQUEST : List Nat :=
  [0x38, 0x00, 0x00, 0x00, 0x1a, 0x00, 0x00, 0x00,
   0x0d, 0xf0, 0xad, 0xba, 0xef, 0xbe, 0xad, 0xde,
   0x88, 0x77, 0x66, 0x55, 0x44, 0x33, 0x22, 0x11,
   0x0d, 0xd0, 0x01, 0xc0, 0xfe, 0xca, 0x01, 0xc0,
   0x5e, 0xba, 0xde, 0xc0, 0x00, 0x00, 0x00, 0x00,
   0x07, 0x00, 0x00, 0x00, 0x08, 0x00, 0x00, 0x00,
   0x00, 0x10, 0x00, 0x00, 0x00, 0x00, 0x00, 0x00]

/-- Representative build configuration: every ABI feature on, implementation
version 7.8, 16 MiB session buffer. -/
def cfg0 : Cfg := ⟨true, true, true, true, true, true, 7, 8, 16777216⟩

/-- Filesystem whose `init` callback succeeds. -/
def fs0 : FSModel := ⟨.ok ()⟩

/-- Filesystem whose `init` callback fails with errno 13. -/
def fsErr : FSModel := ⟨.error 13⟩

/-- A fresh session (`initialized = false`, `destroyed = false`). -/
def seFresh : Session := ⟨false, false, 0, 0⟩

/-- An initialized, not-destroyed session. -/
def seReady : Session := ⟨true, false, 7, 8⟩

/-- An initialized, destroyed session. -/
def seDead : Session := ⟨true, true, 7, 8⟩

/-- A 67-byte WRITE packet whose `fuse_write_in.size` field (5) disagrees with
the number of trailing data bytes (3): header (len 67, opcode 16, unique 1,
nodeid 2), then `fuse_write_in` (fh 0, offset 0, size 5, write_flags 0), then
3 data bytes. -/
def WRITE_BAD_REQUEST : List Nat :=
  [67, 0, 0, 0, 16, 0, 0, 0,
   1, 0, 0, 0, 0, 0, 0, 0,
   2, 0, 0, 0, 0, 0, 0, 0,
   0, 0, 0, 0, 0, 0, 0, 0,
   0, 0, 0, 0, 0, 0, 0, 0,
   0, 0, 0, 0, 0, 0, 0, 0,
   0, 0, 0, 0, 0, 0, 0, 0,
   5, 0, 0, 0, 0, 0, 0, 0,
   1, 2, 3]

/-- The WRITE argument carried by `WRITE_BAD_REQUEST`. -/
def writeBadArg : fuse_write_in := ⟨0, 0, 5, 0⟩

/-! ### Claim theorems -/

/-- Claim C8: for every byte sequence `B` with `|B| < 40` (the size of
`fuse_in_header`), the parser returns `ShortReadHeader(|B|)`. -/
theorem parse_short_header (cfg : Cfg) (B : List Nat) (h : B.length < 40) :
    Request.tryFrom cfg B = .error (.ShortReadHeader B.length) := by
  have h40 : ¬(40 ≤ B.length) := by omega
  simp [Request.tryFrom, ArgIter.fetchBytes, fuse_in_header.size, h40,
    ArgIter.len]

/-- Witness for C8: the first 20 bytes of the INIT_REQUEST fixture parse to
`ShortReadHeader(20)`. -/
theorem parse_short_header_witness :
    Request.tryFrom cfg0 (INIT_REQUEST.take 20) =
      .error (.ShortReadHeader 20) :=
  parse_short_header cfg0 (INIT_REQUEST.take 20) (by decide)

/-- Claim C9: for every byte sequence `B` carrying a valid header (at least 40
bytes, known opcode) that declares total length `L`, if `|B| < L` the parser
returns `ShortRead(|B|, L)`. -/
theorem parse_short_read (cfg : Cfg) (B : List Nat) (c : Opcode)
    (hlen : 40 ≤ B.length)
    (hop : decodeOpcode cfg (fuse_in_header.decode (B.take 40)).opcode = some c)
    (hshort : B.length < (fuse_in_header.decode (B.take 40)).len) :
    Request.tryFrom cfg B =
      .error (.ShortRead B.length (fuse_in_header.decode (B.take 40)).len) := by
  simp [Request.tryFrom, ArgIter.fetchBytes, fuse_in_header.size, hlen, hop,
    hshort]

/-- Witness for C9: the first 48 bytes of the 56-byte INIT_REQUEST fixture
parse to `ShortRead(48, 56)`. -/
theorem parse_short_read_witness :
    Request.tryFrom cfg0 (INIT_REQUEST.take 48) = .error (.ShortRead 48 56) := by
  have h := parse_short_read cfg0 (INIT_REQUEST.take 48) .FUSE_INIT
    (by decide) (by decide) (by decide)
  exact h

/-- Claim C1 (failing input): the parser accepts `WRITE_BAD_REQUEST`, whose
`arg.size` is 5 while the parsed data buffer holds 3 bytes, and dispatching
the resulting operation on an initialized session trips the dispatcher's
`assert!(data.len() == arg.size)` — the parser does not establish the
claimed precondition. -/
theorem write_size_assert_violation :
    Request.tryFrom cfg0 WRITE_BAD_REQUEST =
      .ok { header := ⟨67, 16, 1, 2, 0, 0, 0, 0⟩,
            operation := .Write writeBadArg [1, 2, 3] } ∧
    writeBadArg.size = 5 ∧
    ([1, 2, 3] : List Nat).length = 3 ∧
    dispatch cfg0 fs0 seReady 1 (.Write writeBadArg [1, 2, 3]) =
      (seReady, [.assertionFailure]) := by
  refine ⟨by decide, rfl, rfl, by decide⟩

/-- Claim C7: a filesystem callback never runs before initialization — every
non-INIT request dispatched on a session with `initialized = false` yields
exactly an EIO error reply (result `-EIO`) and the session is unchanged, so
no filesystem callback is invoked. -/
theorem preinit_gate (cfg : Cfg) (fs : FSModel) (se : Session) (u : Nat)
    (op : Operation) (hinit : se.initialized = false)
    (hop : op.isInit = false) :
    dispatch cfg fs se u op = (se, [.sent u (.error EIO)]) := by
  cases op <;> simp_all [dispatch, phaseGate, Operation.isInit]

/-- Witness for C7: a GETATTR request on a fresh session is answered with EIO
and no callback runs (the spec's pre-init gate scenario). -/
theorem preinit_gate_witness :
    dispatch cfg0 fs0 seFresh 3 .GetAttr = (seFresh, [.sent 3 (.error EIO)]) :=
  preinit_gate cfg0 fs0 seFresh 3 .GetAttr rfl rfl

/-- Claim C6: an INIT request with `major < 7`, or `major = 7` and `minor < 6`,
is answered with EPROTO and the session is left completely unchanged. -/
theorem init_version_reject (cfg : Cfg) (fs : FSModel) (se : Session) (u : Nat)
    (arg : fuse_init_in)
    (hv : arg.major < 7 ∨ (arg.major = 7 ∧ arg.minor < 6)) :
    dispatch cfg fs se u (.Init arg) = (se, [.sent u (.error EPROTO)]) := by
  simp [dispatch, hv]

/-- Witness for C6: INIT with version 7.5 replies EPROTO and leaves the fresh
session unchanged (`initialized` stays false). -/
theorem init_version_reject_witness :
    dispatch cfg0 fs0 seFresh 1 (.Init ⟨7, 5, 4096, 1⟩) =
      (seFresh, [.sent 1 (.error EPROTO)]) :=
  init_version_reject cfg0 fs0 seFresh 1 ⟨7, 5, 4096, 1⟩ (by decide)

/-- Claim C5: an INIT request with an acceptable ABI version whose `init`
callback succeeds stores the peer's major/minor, sets `initialized`, and
replies success with the implementation's version, the mirrored
`max_readahead`, `flags = request.flags & INIT_FLAGS` (ASYNC_READ on general
platforms), `max_write` = the session buffer capacity, and — when the
`abi-7-13` feature is selected — `max_background = 32` and
`congestion_threshold = 30`. -/
theorem init_success (cfg : Cfg) (fs : FSModel) (se : Session) (u : Nat)
    (arg : fuse_init_in) (h1 : 7 ≤ arg.major)
    (h2 : ¬(arg.major = 7 ∧ arg.minor < 6))
    (hfs : fs.initResult = .ok ()) :
    dispatch cfg fs se u (.Init arg) =
      ({ se with proto_major := arg.major, proto_minor := arg.minor,
                 initialized := true },
       [.invoked "init",
        .sent u (.okInit
          { major := cfg.kernelMajor
            minor := cfg.kernelMinor
            max_readahead := arg.max_readahead
            flags := arg.flags &&& INIT_FLAGS
            max_write := cfg.maxWriteSize
            max_background := if cfg.abi713 then some 32 else none
            congestion_threshold := if cfg.abi713 then some 30 else none })]) := by
  have hv : ¬(arg.major < 7 ∨ (arg.major = 7 ∧ arg.minor < 6)) := by
    push_neg
    refine ⟨by omega, fun h => Nat.le_of_not_lt fun hm => h2 ⟨h, hm⟩⟩
  simp [dispatch, hv, hfs]

/-- Witness for C5: dispatching the INIT handshake (peer 7.8, readahead 4096,
flags 1) on a fresh session with a succeeding `init` callback. -/
theorem init_success_witness :
    dispatch cfg0 fs0 seFresh 1 (.Init ⟨7, 8, 4096, 1⟩) =
      ({ seFresh with proto_major := 7, proto_minor := 8,
                      initialized := true },
       [.invoked "init",
        .sent 1 (.okInit
          { major := cfg0.kernelMajor
            minor := cfg0.kernelMinor
            max_readahead := 4096
            flags := 1 &&& INIT_FLAGS
            max_write := cfg0.maxWriteSize
            max_background := if cfg0.abi713 then some 32 else none
            congestion_threshold := if cfg0.abi713 then some 30 else none })]) :=
  init_success cfg0 fs0 seFresh 1 ⟨7, 8, 4096, 1⟩ (by decide) (by decide) rfl

/-- Claim C10: when INIT passes the version check but the user `init` callback
fails with errno `err`, the dispatcher replies with that errno and
`initialized` keeps its old value, yet `proto_major`/`proto_minor` have
already been overwritten with the peer's values — the failed INIT does not
leave the session unchanged. -/
theorem init_callback_error (cfg : Cfg) (fs : FSModel) (se : Session) (u : Nat)
    (arg : fuse_init_in) (err : Nat) (h1 : 7 ≤ arg.major)
    (h2 : ¬(arg.major = 7 ∧ arg.minor < 6))
    (hfs : fs.initResult = .error err) :
    dispatch cfg fs se u (.Init arg) =
      ({ se with proto_major := arg.major, proto_minor := arg.minor },
       [.invoked "init", .sent u (.error err)]) := by
  have hv : ¬(arg.major < 7 ∨ (arg.major = 7 ∧ arg.minor < 6)) := by
    push_neg
    refine ⟨by omega, fun h => Nat.le_of_not_lt fun hm => h2 ⟨h, hm⟩⟩
  simp [dispatch, hv, hfs]

/-- Witness for C10: a failing `init` callback (errno 13) on a fresh session:
the reply carries errno 13, `initialized` stays false, but the peer's 7.8 has
been stored into `proto_major`/`proto_minor`. -/
theorem init_callback_error_witness :
    dispatch cfg0 fsErr seFresh 1 (.Init ⟨7, 8, 4096, 1⟩) =
      ({ seFresh with proto_major := 7, proto_minor := 8 },
       [.invoked "init", .sent 1 (.error 13)]) :=
  init_callback_error cfg0 fsErr seFresh 1 ⟨7, 8, 4096, 1⟩ 13
    (by decide) (by decide) rfl

/-- Counterexample to C2 as stated: on a destroyed session, DESTROY is *not*
answered with EIO — the `Destroy` arm precedes the `destroyed` guard, so the
`destroy` callback runs again and an empty-ok reply is sent. -/
theorem destroyed_claim_counterexample :
    callbackInvoked (dispatch cfg0 fs0 seDead 4 .Destroy).2 = true ∧
    (dispatch cfg0 fs0 seDead 4 .Destroy).2 =
      [.invoked "destroy", .sent 4 .okEmpty] := by
  exact ⟨rfl, rfl⟩

/-- Claim C2 (amended): on a session with `destroyed = true`, every request
*other than INIT and DESTROY* is answered with a single EIO error reply, the
session is unchanged, and no filesystem callback runs.  (INIT still enters
the negotiation arm and DESTROY re-runs the destroy arm, because both match
arms precede the `destroyed` guard.) -/
theorem destroyed_gate (cfg : Cfg) (fs : FSModel) (se : Session) (u : Nat)
    (op : Operation) (hd : se.destroyed = true) (hni : op.isInit = false)
    (hnd : op.isDestroy = false) :
    dispatch cfg fs se u op = (se, [.sent u (.error EIO)]) := by
  cases hI : se.initialized <;>
    cases op <;> simp_all [dispatch, phaseGate, Operation.isInit,
      Operation.isDestroy]

/-- Witness for C2 (amended): GETATTR on a destroyed session replies EIO with
no callback. -/
theorem destroyed_gate_witness :
    dispatch cfg0 fs0 seDead 4 .GetAttr = (seDead, [.sent 4 (.error EIO)]) :=
  destroyed_gate cfg0 fs0 seDead 4 .GetAttr rfl rfl rfl

/-- Counterexample to C3 as stated: on an initialized, non-destroyed session
INTERRUPT is answered with exactly one ENOSYS error reply (not no reply), and
BATCH_FORGET likewise gets exactly one ENOSYS error reply while invoking no
callback at all. -/
theorem steady_reply_counterexample :
    (dispatch cfg0 fs0 seReady 9 (.Interrupt ⟨7⟩)).2 =
      [.sent 9 (.error ENOSYS)] ∧
    replyCount (dispatch cfg0 fs0 seReady 9 (.Interrupt ⟨7⟩)).2 = 1 ∧
    (dispatch cfg0 fs0 seReady 9 (.BatchForget ⟨0⟩ [])).2 =
      [.sent 9 (.error ENOSYS)] ∧
    callbackInvoked (dispatch cfg0 fs0 seReady 9 (.BatchForget ⟨0⟩ [])).2 =
      false := by
  exact ⟨rfl, rfl, rfl, rfl⟩

/-- Claim C3 (amended): on an initialized, non-destroyed session, every
request whose WRITE/SETXATTR payload length matches `arg.size` receives
exactly one reply — written by the dispatcher or handed as the one-shot reply
handle to the callback — except FORGET, which produces none; INTERRUPT and
BATCH_FORGET are each answered with exactly one (ENOSYS) reply, and
BATCH_FORGET invokes no callback. -/
theorem steady_reply_discipline (cfg : Cfg) (fs : FSModel) (se : Session)
    (u : Nat) (op : Operation) (hi : se.initialized = true)
    (hd : se.destroyed = false) (hsz : op.sizesConsistent = true) :
    replyCount (dispatch cfg fs se u op).2 =
      (if op.isForget then 0 else 1) ∧
    (op.isInterrupt = true →
      (dispatch cfg fs se u op).2 = [.sent u (.error ENOSYS)]) ∧
    (op.isBatchForget = true →
      (dispatch cfg fs se u op).2 = [.sent u (.error ENOSYS)] ∧
      callbackInvoked (dispatch cfg fs se u op).2 = false) := by
  cases op <;>
    simp only [dispatch, phaseGate] <;>
    (repeat' split) <;>
    simp_all [Operation.isForget, Operation.isBatchForget,
      Operation.isInterrupt, Operation.sizesConsistent, replyCount,
      callbackInvoked, Event.isReply]

/-- Witness for C3 (amended): an INTERRUPT on a ready session receives exactly
one reply, namely the ENOSYS error reply. -/
theorem steady_reply_discipline_witness :
    replyCount (dispatch cfg0 fs0 seReady 5 (.Interrupt ⟨3⟩)).2 =
      (if (Operation.Interrupt ⟨3⟩).isForget then 0 else 1) ∧
    ((Operation.Interrupt ⟨3⟩).isInterrupt = true →
      (dispatch cfg0 fs0 seReady 5 (.Interrupt ⟨3⟩)).2 =
        [.sent 5 (.error ENOSYS)]) ∧
    ((Operation.Interrupt ⟨3⟩).isBatchForget = true →
      (dispatch cfg0 fs0 seReady 5 (.Interrupt ⟨3⟩)).2 =
        [.sent 5 (.error ENOSYS)] ∧
      callbackInvoked (dispatch cfg0 fs0 seReady 5 (.Interrupt ⟨3⟩)).2 =
        false) :=
  steady_reply_discipline cfg0 fs0 seReady 5 (.Interrupt ⟨3⟩) rfl rfl rfl

/-- One dispatch never resets `initialized`: if it was true before, it is true
after. -/
theorem initialized_mono_step (cfg : Cfg) (fs : FSModel) (se : Session)
    (u : Nat) (op : Operation) (h : se.initialized = true) :
    (dispatch cfg fs se u op).1.initialized = true := by
  cases op <;> simp only [dispatch, phaseGate] <;> (repeat' split) <;>
    simp_all

/-- One dispatch never resets `destroyed`: if it was true before, it is true
after. -/
theorem destroyed_mono_step (cfg : Cfg) (fs : FSModel) (se : Session)
    (u : Nat) (op : Operation) (h : se.destroyed = true) :
    (dispatch cfg fs se u op).1.destroyed = true := by
  cases op <;> simp only [dispatch, phaseGate] <;> (repeat' split) <;>
    simp_all

/-- The session trace always starts at the starting session. -/
theorem sessionTrace_head (cfg : Cfg) (fs : FSModel) (se : Session)
    (ops : List (Nat × Operation)) :
    (sessionTrace cfg fs se ops).head? = some se := by
  cases ops <;> rfl

/-- Along any trace, a projection that one dispatch step keeps true stays true
from each state to the next. -/
theorem sessionTrace_chain (f : Session → Bool)
    (hf : ∀ cfg fs se u op, f se = true → f (dispatch cfg fs se u op).1 = true)
    (cfg : Cfg) (fs : FSModel) :
    ∀ (ops : List (Nat × Operation)) (se : Session),
      List.Chain' (fun a b => a = true → b = true)
        ((sessionTrace cfg fs se ops).map f) := by
  intro ops
  induction ops with
  | nil => intro se; simp [sessionTrace]
  | cons p rest ih =>
      intro se
      rw [sessionTrace, List.map_cons]
      refine List.chain'_cons'.mpr ⟨?_, ih _⟩
      intro b hb hse
      rw [List.head?_map, sessionTrace_head] at hb
      simp only [Option.map_some', Option.mem_def, Option.some.injEq] at hb
      subst hb
      exact hf cfg fs se p.1 p.2 hse

/-- A boolean trace whose steps never go true→false has no rising edge once
its head is true. -/
theorem risingEdges_zero_of_head_true :
    ∀ l : List Bool, List.Chain' (fun a b => a = true → b = true) l →
      l.head? = some true → risingEdges l = 0 := by
  intro l
  induction l with
  | nil => intro _ h; simp at h
  | cons a rest ih =>
      intro hc hh
      simp only [List.head?_cons, Option.some.injEq] at hh
      subst hh
      cases rest with
      | nil => rfl
      | cons b rest' =>
          rw [List.chain'_cons] at hc
          have hb : b = true := hc.1 rfl
          subst hb
          simp [risingEdges, ih hc.2 rfl]

/-- A boolean trace whose steps never go true→false rises from false to true
at most once. -/
theorem risingEdges_le_one_of_chain :
    ∀ l : List Bool, List.Chain' (fun a b => a = true → b = true) l →
      risingEdges l ≤ 1 := by
  intro l
  induction l with
  | nil => intro _; simp [risingEdges]
  | cons a rest ih =>
      intro hc
      cases rest with
      | nil => simp [risingEdges]
      | cons b rest' =>
          rw [List.chain'_cons] at hc
          by_cases hab : a = false ∧ b = true
          · obtain ⟨ha, hb⟩ := hab
            subst ha
            subst hb
            have h0 : risingEdges (true :: rest') = 0 :=
              risingEdges_zero_of_head_true _ hc.2 rfl
            simp [risingEdges, h0]
          · have := ih hc.2
            simp only [risingEdges, if_neg hab, Nat.zero_add]
            omega

/-- Claim C4 (amended): over any sequence of dispatched requests, the
`initialized` and `destroyed` flags never transition true→false and each
rises false→true at most once.  (The other half of the original claim is
refuted separately: `proto_major`/`proto_minor` are rewritten by any later
version-acceptable INIT.) -/
theorem session_flags_monotone (cfg : Cfg) (fs : FSModel) (se : Session)
    (ops : List (Nat × Operation)) :
    List.Chain' (fun a b => a = true → b = true)
      ((sessionTrace cfg fs se ops).map Session.initialized) ∧
    List.Chain' (fun a b => a = true → b = true)
      ((sessionTrace cfg fs se ops).map Session.destroyed) ∧
    risingEdges ((sessionTrace cfg fs se ops).map Session.initialized) ≤ 1 ∧
    risingEdges ((sessionTrace cfg fs se ops).map Session.destroyed) ≤ 1 := by
  have hci := sessionTrace_chain Session.initialized
    (fun cfg fs se u op h => initialized_mono_step cfg fs se u op h) cfg fs ops se
  have hcd := sessionTrace_chain Session.destroyed
    (fun cfg fs se u op h => destroyed_mono_step cfg fs se u op h) cfg fs ops se
  exact ⟨hci, hcd, risingEdges_le_one_of_chain _ hci,
    risingEdges_le_one_of_chain _ hcd⟩

/-- Counterexample to C4 as stated: after a successful INIT (peer 7.8), a
second INIT with peer version 7.19 overwrites `proto_minor` — the negotiated
version *is* mutated again after INIT succeeded. -/
theorem proto_rewritten_by_second_init :
    (dispatchSeq cfg0 fs0 seFresh [(1, .Init ⟨7, 8, 4096, 1⟩)]).initialized =
      true ∧
    (dispatchSeq cfg0 fs0 seFresh [(1, .Init ⟨7, 8, 4096, 1⟩)]).proto_minor =
      8 ∧
    (dispatchSeq cfg0 fs0 seFresh
        [(1, .Init ⟨7, 8, 4096, 1⟩), (2, .Init ⟨7, 19, 4096, 1⟩)]).proto_minor
      = 19 := by
  exact ⟨rfl, rfl, rfl⟩

end AsyncFuse
